import Mathlib

/-!
Verification of the economic core of the Dino Fighter G1 DApp (src/App.js).

Monetary quantities (reward-token balances, USD amounts, prices) are embedded
as exact rationals; the source stores them as JavaScript numbers, and every
constant appearing in the source (200000, 0.5, 50000, 0.1, 0.00005, 1.10,
1.5, 250, 1000) is an exact decimal, so the rational embedding matches the
arithmetic structure of the code.  Firestore documents become Lean structures;
each mutating handler becomes a function from the pre-state (and its explicit
inputs, including the random reel indices for the slot machine) to either an
error or the post-state it writes.
-/

namespace DinoFighter

/-- Error kinds of the mutating operations (each corresponds to an early
return with a user-facing failure message in src/App.js). -/
inductive EconError where
  | insufficientBalance
  | nothingToBurn
  | noTicketsAvailable
  | alreadySpinning
  | saleNotLive
  | invalidAmount
  | walletCapExceeded
  | epochCapExceeded
deriving DecidableEq

/-! ## NFT staking (NFTStakingSection) -/

/-- One entry of the `nfts` array of the per-user staking document:
`{ id, type, earning, staked, lastStakedTime }`.  The `type` field is the
source's string tag; the spec's tier `Unassigned` is the source string
`"New Slot"`. -/
structure StakedNFT where
  id : Nat
  type : String
  earning : ℚ
  staked : Bool
  lastStakedTime : Int
deriving DecidableEq

/-- The per-user staking document: `{ nfts, earned, readyToBurnEDinosur,
totalBurntEDinosur }`.  `earned` is the accrued $eDINOSUR balance. -/
structure StakingData where
  nfts : List StakedNFT
  earned : ℚ
  readyToBurnEDinosur : ℚ
  totalBurntEDinosur : ℚ
deriving DecidableEq

/-- `BASE_ADD_SLOT_EDINOSUR_COST = 200000` (src/App.js line 288). -/
def BASE_ADD_SLOT_EDINOSUR_COST : ℚ := 200000

/-- `ADD_SLOT_BURN_AMOUNT_PERCENTAGE = 0.5` (line 289). -/
def ADD_SLOT_BURN_AMOUNT_PERCENTAGE : ℚ := 1 / 2

/-- The set of type strings of currently staked NFTs:
`new Set(nfts.filter(nft => nft.staked).map(nft => nft.type))` (line 313).
A list with membership as the set predicate embeds the JS `Set.has`. -/
def stakedTypes (nfts : List StakedNFT) : List String :=
  (nfts.filter (fun nft => nft.staked)).map (fun nft => nft.type)

/-- `calculateMultiplier` (lines 311-325): highest staked tier present wins:
Legend 1.5, else King 1.3, else Unique 1.15, else Common or Rare 1.05,
else the initial 1.0. -/
def calculateMultiplier (nfts : List StakedNFT) : ℚ :=
  let st := stakedTypes nfts
  if "Legend" ∈ st then 3 / 2
  else if "King" ∈ st then 13 / 10
  else if "Unique" ∈ st then 23 / 20
  else if "Common" ∈ st ∨ "Rare" ∈ st then 21 / 20
  else 1

/-- `calculateAddSlotCost` (lines 328-335): base cost for fewer than 4 slots,
`baseCost * 1.5 ^ (currentSlotCount - 3)` from the 4th slot on. -/
def calculateAddSlotCost (currentSlotCount : Nat) : ℚ :=
  if currentSlotCount ≥ 4 then
    BASE_ADD_SLOT_EDINOSUR_COST * (3 / 2 : ℚ) ^ (currentSlotCount - 3)
  else BASE_ADD_SLOT_EDINOSUR_COST

/-- `Math.max(...currentNFTs.map(n => n.id))` of line 455, as a fold over the
id list (equal to the maximum for a nonempty list of naturals). -/
def maxNftId (nfts : List StakedNFT) : Nat :=
  (nfts.map (fun nft => nft.id)).foldl max 0

/-- The fresh id of line 455:
`currentNFTs.length > 0 ? Math.max(...currentNFTs.map(n => n.id)) + 1 : 1`. -/
def newNftId (nfts : List StakedNFT) : Nat :=
  if nfts.length > 0 then maxNftId nfts + 1 else 1

/-- `handleAddSlot` (lines 433-469): with `calculatedCost` from the current
slot count, a sufficient balance pays the cost, credits 50% of it to
`readyToBurnEDinosur` and appends one fresh `'New Slot'` NFT; otherwise the
handler reports insufficient balance and writes nothing. -/
def handleAddSlot (st : StakingData) : Except EconError StakingData :=
  let calculatedCost := calculateAddSlotCost st.nfts.length
  if st.earned ≥ calculatedCost then
    let remainingEDinosur := st.earned - calculatedCost
    let burnAmount := calculatedCost * ADD_SLOT_BURN_AMOUNT_PERCENTAGE
    let newReadyToBurnEDinosur := st.readyToBurnEDinosur + burnAmount
    let newNFT : StakedNFT :=
      { id := newNftId st.nfts, type := "New Slot", earning := 0,
        staked := false, lastStakedTime := 0 }
    Except.ok { st with
      nfts := st.nfts ++ [newNFT],
      earned := remainingEDinosur,
      readyToBurnEDinosur := newReadyToBurnEDinosur }
  else Except.error EconError.insufficientBalance

/-! ## Burn ledgers (EDinosurSection and DinosurCoinSection) -/

/-- A burn ledger: the pair of fields `{ readyToBurn*, totalBurnt* }` kept in
the per-user staking document and in the global
`dinosur_burn_stats/global_stats` document. -/
structure BurnLedger where
  readyToBurn : ℚ
  totalBurnt : ℚ
deriving DecidableEq

/-- The two burn ledgers the burn buttons act on: the per-user one and the
process-wide singleton. -/
structure BurnWorld where
  user : BurnLedger
  globalStats : BurnLedger
deriving DecidableEq

/-- `handleBurnEDinosur` (lines 638-654): burns the user's pool when positive,
otherwise reports that nothing is ready to burn.  Only the per-user ledger's
two fields are written. -/
def handleBurnEDinosur (w : BurnWorld) : Except EconError BurnWorld :=
  if w.user.readyToBurn > 0 then
    Except.ok { w with
      user := { readyToBurn := 0,
                totalBurnt := w.user.totalBurnt + w.user.readyToBurn } }
  else Except.error EconError.nothingToBurn

/-- `handleBurnDinosur` (lines 762-779): the same contract on the global
singleton ledger. -/
def handleBurnDinosur (w : BurnWorld) : Except EconError BurnWorld :=
  if w.globalStats.readyToBurn > 0 then
    Except.ok { w with
      globalStats := { readyToBurn := 0,
                       totalBurnt := w.globalStats.totalBurnt
                         + w.globalStats.readyToBurn } }
  else Except.error EconError.nothingToBurn

/-! ## Raffle economics (RaffleSlotSection) -/

/-- `EDINOSUR_TICKET_COST = 50000` (line 1192). -/
def EDINOSUR_TICKET_COST : ℚ := 50000

/-- `EDINOSUR_BURN_AMOUNT_PERCENTAGE = 0.1` (line 1193). -/
def EDINOSUR_BURN_AMOUNT_PERCENTAGE : ℚ := 1 / 10

/-- `handleBuyTickets` (lines 1277-1315): with totalCost = quantity × ticket
price, a sufficient balance debits the staking document, adds the tickets,
and credits 10% of the cost to readyToBurn; otherwise nothing is written.
Returns the updated staking document and ticket count. -/
def handleBuyTickets (st : StakingData) (ticketCount ticketQuantity : Nat) :
    Except EconError (StakingData × Nat) :=
  let totalCost := (ticketQuantity : ℚ) * EDINOSUR_TICKET_COST
  if st.earned ≥ totalCost then
    let newTicketCount := ticketCount + ticketQuantity
    let remainingEDinosur := st.earned - totalCost
    let burnAmount := totalCost * EDINOSUR_BURN_AMOUNT_PERCENTAGE
    Except.ok ({ st with
      earned := remainingEDinosur,
      readyToBurnEDinosur := st.readyToBurnEDinosur + burnAmount },
      newTicketCount)
  else Except.error EconError.insufficientBalance

/-- The reel symbol alphabet of line 1206: six entries, all the empty
string. -/
def symbols : List String := ["", "", "", "", "", ""]

/-- The three-way outcome of a completed spin. -/
inductive SpinOutcome where
  | jackpot
  | pairMatch
  | noWin
deriving DecidableEq

/-- The spin-result classification of lines 1354-1360: all three final reels
equal is a jackpot, any two equal (in any positions) is a two-symbol match
(PartialMatch), anything else no win. -/
def classifySpin (finalReel1 finalReel2 finalReel3 : String) : SpinOutcome :=
  if finalReel1 = finalReel2 ∧ finalReel2 = finalReel3 then SpinOutcome.jackpot
  else if finalReel1 = finalReel2 ∨ finalReel2 = finalReel3
      ∨ finalReel1 = finalReel3 then SpinOutcome.pairMatch
  else SpinOutcome.noWin

/-- `handleSpin` (lines 1317-1369): a spin already in flight is rejected
first; then a spin with no tickets is rejected; otherwise one ticket is
consumed and three final reel symbols are drawn by independent uniform
indices into the symbol alphabet (the `Math.floor(Math.random() *
symbols.length)` draws of lines 1346-1348, passed here as the oracle
arguments) and the outcome is classified. -/
def handleSpin (ticketCount : Nat) (isSpinning : Bool)
    (i1 i2 i3 : Fin symbols.length) : Except EconError (Nat × SpinOutcome) :=
  if isSpinning then Except.error EconError.alreadySpinning
  else if ticketCount > 0 then
    Except.ok (ticketCount - 1,
      classifySpin (symbols.get i1) (symbols.get i2) (symbols.get i3))
  else Except.error EconError.noTicketsAvailable

/-! ## Sale engine (EDinosurSaleSection) -/

/-- `initialPrice = 0.00005` dollars per token (line 880). -/
def initialPrice : ℚ := 5 / 100000

/-- `priceIncreaseFactor = 1.10` (line 881). -/
def priceIncreaseFactor : ℚ := 11 / 10

/-- `epochDurationDays = 7` (line 879). -/
def epochDurationDays : Nat := 7

/-- `epochMs = epochDurationDays * 24 * 60 * 60 * 1000` (line 954). -/
def epochMs : Nat := epochDurationDays * 24 * 60 * 60 * 1000

/-- `MAX_EPOCH_PURCHASE_USD = 250` (line 885). -/
def MAX_EPOCH_PURCHASE_USD : ℚ := 250

/-- The epoch number of lines 953-955:
`Math.floor((now - saleStartTime) / epochMs)`, evaluated when the sale is
live (times are integer epoch-milliseconds). -/
def epochIndex (saleStartTime now : Int) : Nat :=
  (now - saleStartTime).toNat / epochMs

/-- The per-epoch price of line 957:
`initialPrice * Math.pow(priceIncreaseFactor, currentEpochNum)`. -/
def priceAtEpoch (e : Nat) : ℚ := initialPrice * priceIncreaseFactor ^ e

/-- The per-user sale-purchase document `eDinoSalePurchases`:
`{ totalPurchasedUSD, userPurchasedUSDInCurrentEpoch, lastPurchaseEpoch }`
(initialized to 0, 0, −1). -/
structure SaleAccount where
  totalPurchasedUSD : ℚ
  userPurchasedUSDInCurrentEpoch : ℚ
  lastPurchaseEpoch : Int
deriving DecidableEq

/-- The sale state visible to the buy handler: whether the sale is live, the
current epoch, and the purchase document. -/
structure SaleView where
  saleStarted : Bool
  currentEpoch : Nat
  acct : SaleAccount
deriving DecidableEq

/-- One firing of the countdown/epoch effect (lines 946-976): before the sale
start the sale is not live; once `saleStartTime - now < 0` the epoch is
recomputed and, exactly when it differs from `lastPurchaseEpoch`, the
per-epoch spent counter is reset to 0 and `lastPurchaseEpoch` is set to the
new epoch. -/
def saleTick (saleStartTime now : Int) (v : SaleView) : SaleView :=
  if saleStartTime - now < 0 then
    let currentEpochNum := epochIndex saleStartTime now
    if (currentEpochNum : Int) ≠ v.acct.lastPurchaseEpoch then
      { saleStarted := true, currentEpoch := currentEpochNum,
        acct := { v.acct with
          userPurchasedUSDInCurrentEpoch := 0,
          lastPurchaseEpoch := (currentEpochNum : Int) } }
    else
      { v with saleStarted := true, currentEpoch := currentEpochNum }
  else { v with saleStarted := false }

/-- `handleBuy` (lines 991-1042): rejects when the sale has not started, then
when the amount is not positive; with costUSD = amount × current price it
rejects a purchase lifting lifetime spend above $1000, then one lifting the
per-epoch spend above $250; on success both spend counters grow by the cost
and the purchase epoch is recorded. -/
def handleBuy (saleStarted : Bool) (currentEpoch : Nat) (acct : SaleAccount)
    (amountToBuy : ℚ) : Except EconError SaleAccount :=
  if saleStarted = false then Except.error EconError.saleNotLive
  else if amountToBuy ≤ 0 then Except.error EconError.invalidAmount
  else
    let costUSD := amountToBuy * priceAtEpoch currentEpoch
    if acct.totalPurchasedUSD + costUSD > 1000 then
      Except.error EconError.walletCapExceeded
    else if acct.userPurchasedUSDInCurrentEpoch + costUSD
        > MAX_EPOCH_PURCHASE_USD then
      Except.error EconError.epochCapExceeded
    else Except.ok
      { totalPurchasedUSD := acct.totalPurchasedUSD + costUSD,
        userPurchasedUSDInCurrentEpoch :=
          acct.userPurchasedUSDInCurrentEpoch + costUSD,
        lastPurchaseEpoch := (currentEpoch : Int) }

end DinoFighter

namespace DinoFighter

/-- C3: for every slot count n with 0 ≤ n ≤ 3, costOf(n) = 200000, and for
every n ≥ 4, costOf(n) = 200000 × 1.5^(n−3); in particular
costOf(4) = 300000 and costOf(6) = 675000. -/
theorem calculateAddSlotCost_spec (n : Nat) :
    (n ≤ 3 → calculateAddSlotCost n = 200000) ∧
    (4 ≤ n → calculateAddSlotCost n = 200000 * (3 / 2 : ℚ) ^ (n - 3)) ∧
    calculateAddSlotCost 4 = 300000 ∧ calculateAddSlotCost 6 = 675000 := by
  refine ⟨fun h => ?_, fun h => ?_, ?_, ?_⟩
  · rw [calculateAddSlotCost, if_neg (by omega)]; rfl
  · rw [calculateAddSlotCost, if_pos h]; rfl
  · norm_num [calculateAddSlotCost, BASE_ADD_SLOT_EDINOSUR_COST]
  · norm_num [calculateAddSlotCost, BASE_ADD_SLOT_EDINOSUR_COST]

/-- Witness for C3 at concrete slot counts 2 and 5. -/
theorem calculateAddSlotCost_spec_witness :
    calculateAddSlotCost 2 = 200000 ∧
    calculateAddSlotCost 5 = 200000 * (3 / 2 : ℚ) ^ (5 - 3) :=
  ⟨(calculateAddSlotCost_spec 2).1 (by norm_num),
   (calculateAddSlotCost_spec 5).2.1 (by norm_num)⟩

/-- C5: the multiplier is 1.00 for an empty staked-tier set, 1.50 when Legend
is present, else 1.30 for King, else 1.15 for Unique, else 1.05 for Common or
Rare; it depends only on which tiers are present (membership), never on how
many assets share a tier, and unstaked assets are excluded before
evaluation. -/
theorem calculateMultiplier_spec (nfts nfts' : List StakedNFT) :
    (stakedTypes nfts = [] → calculateMultiplier nfts = 1) ∧
    ("Legend" ∈ stakedTypes nfts → calculateMultiplier nfts = 3 / 2) ∧
    ("Legend" ∉ stakedTypes nfts → "King" ∈ stakedTypes nfts →
      calculateMultiplier nfts = 13 / 10) ∧
    ("Legend" ∉ stakedTypes nfts → "King" ∉ stakedTypes nfts →
      "Unique" ∈ stakedTypes nfts → calculateMultiplier nfts = 23 / 20) ∧
    ("Legend" ∉ stakedTypes nfts → "King" ∉ stakedTypes nfts →
      "Unique" ∉ stakedTypes nfts →
      "Common" ∈ stakedTypes nfts ∨ "Rare" ∈ stakedTypes nfts →
      calculateMultiplier nfts = 21 / 20) ∧
    ((∀ s : String, s ∈ stakedTypes nfts' ↔ s ∈ stakedTypes nfts) →
      calculateMultiplier nfts' = calculateMultiplier nfts) ∧
    (∀ a : StakedNFT, a.staked = false →
      calculateMultiplier (a :: nfts) = calculateMultiplier nfts) := by
  refine ⟨fun h => ?_, fun h => ?_, fun h1 h2 => ?_, fun h1 h2 h3 => ?_,
    fun h1 h2 h3 h4 => ?_, fun h => ?_, fun a ha => ?_⟩
  · simp [calculateMultiplier, h]
  · simp [calculateMultiplier, h]
  · simp [calculateMultiplier, h1, h2]
  · simp [calculateMultiplier, h1, h2, h3]
  · simp [calculateMultiplier, h1, h2, h3, h4]
  · have e1 : ("Legend" ∈ stakedTypes nfts') = ("Legend" ∈ stakedTypes nfts) :=
      propext (h "Legend")
    have e2 : ("King" ∈ stakedTypes nfts') = ("King" ∈ stakedTypes nfts) :=
      propext (h "King")
    have e3 : ("Unique" ∈ stakedTypes nfts') = ("Unique" ∈ stakedTypes nfts) :=
      propext (h "Unique")
    have e4 : ("Common" ∈ stakedTypes nfts') = ("Common" ∈ stakedTypes nfts) :=
      propext (h "Common")
    have e5 : ("Rare" ∈ stakedTypes nfts') = ("Rare" ∈ stakedTypes nfts) :=
      propext (h "Rare")
    simp only [calculateMultiplier, e1, e2, e3, e4, e5]
  · have hst : stakedTypes (a :: nfts) = stakedTypes nfts := by
      simp [stakedTypes, List.filter_cons, ha]
    simp only [calculateMultiplier, hst]

/-- Witness for C5: a legend-staked pair of lists with different asset counts
but equal staked-tier membership, and an unstaked asset being ignored. -/
theorem calculateMultiplier_spec_witness :
    calculateMultiplier [⟨1, "Legend", 50000, true, 0⟩] = 3 / 2 ∧
    calculateMultiplier
      [⟨1, "Legend", 50000, true, 0⟩, ⟨2, "Legend", 50000, true, 0⟩] =
      calculateMultiplier [⟨1, "Legend", 50000, true, 0⟩] ∧
    calculateMultiplier [] = 1 := by
  refine ⟨(calculateMultiplier_spec [⟨1, "Legend", 50000, true, 0⟩] []).2.1
      (by simp [stakedTypes]), ?_, ?_⟩
  · exact (calculateMultiplier_spec [⟨1, "Legend", 50000, true, 0⟩]
      [⟨1, "Legend", 50000, true, 0⟩, ⟨2, "Legend", 50000, true, 0⟩]).2.2.2.2.2.1
      (by simp [stakedTypes])
  · exact (calculateMultiplier_spec [] []).1 (by simp [stakedTypes])

/-- Every id in the list is bounded by the running maximum of the fold. -/
theorem le_foldl_max_of_mem (l : List Nat) :
    ∀ init : Nat, (init ≤ l.foldl max init) ∧ ∀ x ∈ l, x ≤ l.foldl max init := by
  induction l with
  | nil => intro init; simp
  | cons a l ih =>
    intro init
    refine ⟨le_trans (le_max_left init a) (ih (max init a)).1, fun x hx => ?_⟩
    rcases List.mem_cons.mp hx with rfl | h
    · exact le_trans (le_max_right init x) (ih (max init x)).1
    · exact (ih (max init a)).2 x h

/-- The fresh-slot id bound: every existing id is at most maxNftId. -/
theorem maxNftId_is_max (nfts : List StakedNFT) :
    ∀ a ∈ nfts, a.id ≤ maxNftId nfts := by
  intro a ha
  unfold maxNftId
  exact (le_foldl_max_of_mem (nfts.map (fun nft => nft.id)) 0).2 a.id
    (List.mem_map_of_mem (fun nft => nft.id) ha)

/-- C1: a slot purchase against an insufficient balance fails with
InsufficientBalance writing nothing; with a sufficient balance it atomically
debits the cost, credits half the cost to readyToBurn, and appends exactly one
fresh unassigned (source tag "New Slot") asset with zero rate, unstaked, and
id = max existing id + 1 (or 1 on an empty list). -/
theorem handleAddSlot_spec (st : StakingData) :
    (st.earned < calculateAddSlotCost st.nfts.length →
      handleAddSlot st = Except.error EconError.insufficientBalance) ∧
    (calculateAddSlotCost st.nfts.length ≤ st.earned →
      handleAddSlot st = Except.ok
        { nfts := st.nfts ++
            [{ id := if st.nfts = [] then 1 else maxNftId st.nfts + 1,
               type := "New Slot", earning := 0, staked := false,
               lastStakedTime := 0 }],
          earned := st.earned - calculateAddSlotCost st.nfts.length,
          readyToBurnEDinosur := st.readyToBurnEDinosur
            + calculateAddSlotCost st.nfts.length * (1 / 2),
          totalBurntEDinosur := st.totalBurntEDinosur }) := by
  constructor
  · intro h
    simp only [handleAddSlot]
    rw [if_neg (not_le.mpr h)]
  · intro h
    simp only [handleAddSlot]
    rw [if_pos h]
    have hid : newNftId st.nfts =
        if st.nfts = [] then 1 else maxNftId st.nfts + 1 := by
      cases st.nfts with
      | nil => simp [newNftId]
      | cons a l => simp [newNftId]
    rw [hid]
    rfl

/-- Witness for C1: the spec scenario — empty account with balance 0 fails;
with balance 200000 the purchase succeeds leaving balance 0,
readyToBurn 100000, and one fresh asset with id 1. -/
theorem handleAddSlot_spec_witness :
    handleAddSlot
        { nfts := [], earned := 0, readyToBurnEDinosur := 0,
          totalBurntEDinosur := 0 } =
      Except.error EconError.insufficientBalance ∧
    handleAddSlot
        { nfts := [], earned := 200000, readyToBurnEDinosur := 0,
          totalBurntEDinosur := 0 } =
      Except.ok
        { nfts := [{ id := 1, type := "New Slot", earning := 0,
                     staked := false, lastStakedTime := 0 }],
          earned := 0, readyToBurnEDinosur := 100000,
          totalBurntEDinosur := 0 } := by
  constructor
  · exact (handleAddSlot_spec _).1
      (by norm_num [calculateAddSlotCost, BASE_ADD_SLOT_EDINOSUR_COST])
  · have h := (handleAddSlot_spec
      { nfts := [], earned := 200000, readyToBurnEDinosur := 0,
        totalBurntEDinosur := 0 }).2
      (by norm_num [calculateAddSlotCost, BASE_ADD_SLOT_EDINOSUR_COST])
    rw [h]
    norm_num [calculateAddSlotCost, BASE_ADD_SLOT_EDINOSUR_COST]

/-- C4: a ticket purchase of quantity ≥ 1 with totalCost = quantity × 50000
fails with InsufficientBalance when the balance is smaller, writing nothing;
otherwise it debits the balance by totalCost, adds the quantity to the ticket
count, and credits 10% of totalCost to readyToBurn. -/
theorem handleBuyTickets_spec (st : StakingData)
    (ticketCount ticketQuantity : Nat) (_hq : 1 ≤ ticketQuantity) :
    (st.earned < (ticketQuantity : ℚ) * 50000 →
      handleBuyTickets st ticketCount ticketQuantity =
        Except.error EconError.insufficientBalance) ∧
    ((ticketQuantity : ℚ) * 50000 ≤ st.earned →
      handleBuyTickets st ticketCount ticketQuantity = Except.ok
        ({ st with
            earned := st.earned - (ticketQuantity : ℚ) * 50000,
            readyToBurnEDinosur := st.readyToBurnEDinosur
              + (ticketQuantity : ℚ) * 50000 * (1 / 10) },
          ticketCount + ticketQuantity)) := by
  constructor
  · intro h
    simp only [handleBuyTickets, EDINOSUR_TICKET_COST]
    rw [if_neg (not_le.mpr h)]
  · intro h
    simp only [handleBuyTickets, EDINOSUR_TICKET_COST]
    rw [if_pos h]
    rfl

/-- Witness for C4: the spec scenario — 3 tickets at 50000 each from balance
200000 leave balance 50000, readyToBurn +15000, and ticket count 3. -/
theorem handleBuyTickets_spec_witness :
    handleBuyTickets
        { nfts := [], earned := 200000, readyToBurnEDinosur := 0,
          totalBurntEDinosur := 0 } 0 3 =
      Except.ok
        ({ nfts := [], earned := 50000, readyToBurnEDinosur := 15000,
           totalBurntEDinosur := 0 }, 3) := by
  have h := (handleBuyTickets_spec
    { nfts := [], earned := 200000, readyToBurnEDinosur := 0,
      totalBurntEDinosur := 0 } 0 3 (by norm_num)).2 (by norm_num)
  rw [h]
  norm_num

/-- C6: burning fails with NothingToBurn when the pool is 0 (counters
untouched), otherwise moves the whole pool into totalBurnt and zeroes it; the
contract holds independently for the per-user ledger and the global singleton,
and a burn on one never modifies the other. -/
theorem burnAll_spec (w : BurnWorld) (hu : 0 ≤ w.user.readyToBurn)
    (hg : 0 ≤ w.globalStats.readyToBurn) :
    (w.user.readyToBurn = 0 →
      handleBurnEDinosur w = Except.error EconError.nothingToBurn) ∧
    (w.user.readyToBurn ≠ 0 →
      handleBurnEDinosur w = Except.ok
        { user := { readyToBurn := 0,
                    totalBurnt := w.user.totalBurnt + w.user.readyToBurn },
          globalStats := w.globalStats }) ∧
    (∀ w2, handleBurnEDinosur w = Except.ok w2 →
      w2.globalStats = w.globalStats) ∧
    (w.globalStats.readyToBurn = 0 →
      handleBurnDinosur w = Except.error EconError.nothingToBurn) ∧
    (w.globalStats.readyToBurn ≠ 0 →
      handleBurnDinosur w = Except.ok
        { user := w.user,
          globalStats := { readyToBurn := 0,
                           totalBurnt := w.globalStats.totalBurnt
                             + w.globalStats.readyToBurn } }) ∧
    (∀ w2, handleBurnDinosur w = Except.ok w2 → w2.user = w.user) := by
  refine ⟨fun h => ?_, fun h => ?_, fun w2 hw => ?_, fun h => ?_,
    fun h => ?_, fun w2 hw => ?_⟩
  · simp [handleBurnEDinosur, h]
  · simp only [handleBurnEDinosur]
    rw [if_pos (lt_of_le_of_ne hu (Ne.symm h))]
  · by_cases hpos : w.user.readyToBurn > 0
    · simp only [handleBurnEDinosur, if_pos hpos, Except.ok.injEq] at hw
      rw [← hw]
    · simp [handleBurnEDinosur, if_neg hpos] at hw
  · simp [handleBurnDinosur, h]
  · simp only [handleBurnDinosur]
    rw [if_pos (lt_of_le_of_ne hg (Ne.symm h))]
  · by_cases hpos : w.globalStats.readyToBurn > 0
    · simp only [handleBurnDinosur, if_pos hpos, Except.ok.injEq] at hw
      rw [← hw]
    · simp [handleBurnDinosur, if_neg hpos] at hw

/-- Witness for C6: a user pool of 5 burns into the user ledger while the
global ledger (with an empty pool) is untouched, and the empty global pool
refuses to burn. -/
theorem burnAll_spec_witness :
    handleBurnEDinosur ⟨⟨5, 0⟩, ⟨0, 7⟩⟩ = Except.ok ⟨⟨0, 5⟩, ⟨0, 7⟩⟩ ∧
    handleBurnDinosur ⟨⟨5, 0⟩, ⟨0, 7⟩⟩ =
      Except.error EconError.nothingToBurn := by
  have h := burnAll_spec ⟨⟨5, 0⟩, ⟨0, 7⟩⟩ (by norm_num) (by norm_num)
  constructor
  · rw [h.2.1 (by norm_num)]
    norm_num
  · exact h.2.2.2.1 rfl

/-- C2: a sale purchase rejects with SaleNotLive before the start, then
InvalidAmount for a non-positive amount; with cost = amount × price of the
current epoch it rejects with WalletCapExceeded above the $1000 lifetime cap,
then EpochCapExceeded above the $250 epoch cap; on success both spend
counters grow by the cost and the purchase epoch is recorded.  Every failure
is an early return that writes nothing. -/
theorem handleBuy_spec (saleStarted : Bool) (currentEpoch : Nat)
    (acct : SaleAccount) (amountToBuy : ℚ) :
    (saleStarted = false →
      handleBuy saleStarted currentEpoch acct amountToBuy =
        Except.error EconError.saleNotLive) ∧
    (saleStarted = true → amountToBuy ≤ 0 →
      handleBuy saleStarted currentEpoch acct amountToBuy =
        Except.error EconError.invalidAmount) ∧
    (saleStarted = true → 0 < amountToBuy →
      acct.totalPurchasedUSD + amountToBuy * priceAtEpoch currentEpoch
        > 1000 →
      handleBuy saleStarted currentEpoch acct amountToBuy =
        Except.error EconError.walletCapExceeded) ∧
    (saleStarted = true → 0 < amountToBuy →
      acct.totalPurchasedUSD + amountToBuy * priceAtEpoch currentEpoch
        ≤ 1000 →
      acct.userPurchasedUSDInCurrentEpoch
        + amountToBuy * priceAtEpoch currentEpoch > 250 →
      handleBuy saleStarted currentEpoch acct amountToBuy =
        Except.error EconError.epochCapExceeded) ∧
    (saleStarted = true → 0 < amountToBuy →
      acct.totalPurchasedUSD + amountToBuy * priceAtEpoch currentEpoch
        ≤ 1000 →
      acct.userPurchasedUSDInCurrentEpoch
        + amountToBuy * priceAtEpoch currentEpoch ≤ 250 →
      handleBuy saleStarted currentEpoch acct amountToBuy = Except.ok
        { totalPurchasedUSD := acct.totalPurchasedUSD
            + amountToBuy * priceAtEpoch currentEpoch,
          userPurchasedUSDInCurrentEpoch :=
            acct.userPurchasedUSDInCurrentEpoch
              + amountToBuy * priceAtEpoch currentEpoch,
          lastPurchaseEpoch := (currentEpoch : Int) }) := by
  refine ⟨fun h0 => ?_, fun h0 h1 => ?_, fun h0 h1 h2 => ?_,
    fun h0 h1 h2 h3 => ?_, fun h0 h1 h2 h3 => ?_⟩
  · simp [handleBuy, h0]
  · simp only [handleBuy, h0]
    rw [if_neg (by simp), if_pos h1]
  · simp only [handleBuy, h0]
    rw [if_neg (by simp), if_neg (not_le.mpr h1), if_pos h2]
  · simp only [handleBuy, h0]
    rw [if_neg (by simp), if_neg (not_le.mpr h1), if_neg (not_lt.mpr h2),
      if_pos (show _ > MAX_EPOCH_PURCHASE_USD from h3)]
  · simp only [handleBuy, h0]
    rw [if_neg (by simp), if_neg (not_le.mpr h1), if_neg (not_lt.mpr h2),
      if_neg (not_lt.mpr (show _ ≤ MAX_EPOCH_PURCHASE_USD from h3))]

/-- Witness for C2: the spec scenario at epoch 0 — buying 1,000,000 tokens
costs $50 and succeeds from a fresh account; buying $150 more on an account
already at $150 this epoch trips the $250 epoch cap while the lifetime cap is
still clear. -/
theorem handleBuy_spec_witness :
    handleBuy true 0
        { totalPurchasedUSD := 0, userPurchasedUSDInCurrentEpoch := 0,
          lastPurchaseEpoch := -1 } 1000000 =
      Except.ok
        { totalPurchasedUSD := 50, userPurchasedUSDInCurrentEpoch := 50,
          lastPurchaseEpoch := 0 } ∧
    handleBuy true 0
        { totalPurchasedUSD := 150, userPurchasedUSDInCurrentEpoch := 150,
          lastPurchaseEpoch := 0 } 3000000 =
      Except.error EconError.epochCapExceeded := by
  constructor
  · have h := (handleBuy_spec true 0
      { totalPurchasedUSD := 0, userPurchasedUSDInCurrentEpoch := 0,
        lastPurchaseEpoch := -1 } 1000000).2.2.2.2 rfl (by norm_num)
      (by norm_num [priceAtEpoch, initialPrice, priceIncreaseFactor])
      (by norm_num [priceAtEpoch, initialPrice, priceIncreaseFactor])
    rw [h]
    norm_num [priceAtEpoch, initialPrice, priceIncreaseFactor]
  · exact (handleBuy_spec true 0
      { totalPurchasedUSD := 150, userPurchasedUSDInCurrentEpoch := 150,
        lastPurchaseEpoch := 0 } 3000000).2.2.2.1 rfl (by norm_num)
      (by norm_num [priceAtEpoch, initialPrice, priceIncreaseFactor])
      (by norm_num [priceAtEpoch, initialPrice, priceIncreaseFactor])

/-- C8: with the sale start fixed, the epoch index at any time past the start
is the floor of elapsed milliseconds over the 7-day epoch duration, the price
at epoch e is 0.00005 × 1.10^e, the epoch index is monotone non-decreasing in
time, and the price is non-decreasing in the epoch index. -/
theorem saleEpoch_spec (saleStartTime t t1 t2 : Int) (e1 e2 : Nat) :
    epochMs = 7 * 24 * 60 * 60 * 1000 ∧
    (saleStartTime ≤ t → (epochIndex saleStartTime t : Int) =
      ⌊((t : ℚ) - (saleStartTime : ℚ)) / (epochMs : ℚ)⌋) ∧
    (∀ e : Nat, priceAtEpoch e = (5 / 100000 : ℚ) * (11 / 10 : ℚ) ^ e) ∧
    (saleStartTime ≤ t1 → t1 < t2 →
      epochIndex saleStartTime t1 ≤ epochIndex saleStartTime t2) ∧
    (e1 ≤ e2 → priceAtEpoch e1 ≤ priceAtEpoch e2) := by
  refine ⟨rfl, fun h => ?_, fun e => rfl, fun h1 h2 => ?_, fun h => ?_⟩
  · have h0 : (0 : Int) ≤ t - saleStartTime := by omega
    have hc : (t : ℚ) - (saleStartTime : ℚ) = ((t - saleStartTime).toNat : ℚ) := by
      have h1 : ((t - saleStartTime).toNat : Int) = t - saleStartTime :=
        Int.toNat_of_nonneg h0
      rw [show (((t - saleStartTime).toNat : Nat) : ℚ) =
        (((t - saleStartTime).toNat : Int) : ℚ) by push_cast; ring, h1]
      push_cast
      ring
    rw [hc, ← Int.natCast_floor_eq_floor (by positivity),
      Nat.floor_div_eq_div ((t - saleStartTime).toNat) epochMs]
    rfl
  · exact Nat.div_le_div_right (Int.toNat_le_toNat (by omega))
  · unfold priceAtEpoch
    refine mul_le_mul_of_nonneg_left ?_ (by norm_num [initialPrice])
    exact pow_le_pow_right₀ (by norm_num [priceIncreaseFactor]) h

/-- Witness for C8 at the concrete times 0, one week, 5 and 10 ms, and epochs
0 and 1. -/
theorem saleEpoch_spec_witness :
    (0 : Int) ≤ 604800000 ∧
    (epochIndex 0 604800000 : Int) =
      ⌊(((604800000 : Int) : ℚ) - ((0 : Int) : ℚ)) / (epochMs : ℚ)⌋ ∧
    epochIndex 0 5 ≤ epochIndex 0 10 ∧
    priceAtEpoch 0 ≤ priceAtEpoch 1 :=
  ⟨by norm_num,
   (saleEpoch_spec 0 604800000 5 10 0 1).2.1 (by norm_num),
   (saleEpoch_spec 0 604800000 5 10 0 1).2.2.2.1 (by norm_num) (by norm_num),
   (saleEpoch_spec 0 604800000 5 10 0 1).2.2.2.2 (by norm_num)⟩

/-- C7: when the countdown effect fires while the sale is live and the
observed epoch differs from lastPurchaseEpoch, the per-epoch spent counter is
reset to 0 (before any purchase in the new epoch can be evaluated) and the
new epoch is recorded; when the recorded epoch already matches, the effect
leaves the purchase document untouched, so the reset happens exactly once per
epoch transition; and after the reset the same wallet can buy up to $250
again in the new epoch. -/
theorem saleTick_epochReset_spec (saleStartTime now now2 : Int)
    (v : SaleView) :
    (saleStartTime - now < 0 →
      (epochIndex saleStartTime now : Int) ≠ v.acct.lastPurchaseEpoch →
      (saleTick saleStartTime now v).acct.userPurchasedUSDInCurrentEpoch = 0 ∧
      (saleTick saleStartTime now v).acct.lastPurchaseEpoch =
        (epochIndex saleStartTime now : Int) ∧
      (saleTick saleStartTime now v).acct.totalPurchasedUSD =
        v.acct.totalPurchasedUSD) ∧
    (saleStartTime - now < 0 →
      (epochIndex saleStartTime now : Int) = v.acct.lastPurchaseEpoch →
      (saleTick saleStartTime now v).acct = v.acct) ∧
    (saleStartTime - now < 0 → saleStartTime - now2 < 0 →
      epochIndex saleStartTime now2 = epochIndex saleStartTime now →
      (saleTick saleStartTime now2 (saleTick saleStartTime now v)).acct =
        (saleTick saleStartTime now v).acct) ∧
    (∀ amountToBuy : ℚ, saleStartTime - now < 0 →
      (epochIndex saleStartTime now : Int) ≠ v.acct.lastPurchaseEpoch →
      0 < amountToBuy →
      v.acct.totalPurchasedUSD
        + amountToBuy * priceAtEpoch (epochIndex saleStartTime now) ≤ 1000 →
      amountToBuy * priceAtEpoch (epochIndex saleStartTime now) ≤ 250 →
      ∃ acctAfter,
        handleBuy (saleTick saleStartTime now v).saleStarted
          (saleTick saleStartTime now v).currentEpoch
          (saleTick saleStartTime now v).acct amountToBuy =
        Except.ok acctAfter) := by
  have hlast : saleStartTime - now < 0 →
      (saleTick saleStartTime now v).acct.lastPurchaseEpoch =
        (epochIndex saleStartTime now : Int) := by
    intro h1
    simp only [saleTick]
    rw [if_pos h1]
    by_cases hc : (epochIndex saleStartTime now : Int) ≠
        v.acct.lastPurchaseEpoch
    · rw [if_pos hc]
    · rw [if_neg hc]
      exact (not_not.mp hc).symm
  refine ⟨fun h1 h2 => ?_, fun h1 h2 => ?_, fun h1 h2 h3 => ?_,
    fun amountToBuy h1 h2 hpos hlife hepoch => ?_⟩
  · simp only [saleTick]
    rw [if_pos h1, if_pos h2]
    exact ⟨rfl, rfl, rfl⟩
  · simp only [saleTick]
    rw [if_pos h1, if_neg (not_not_intro h2)]
  · have hsame : ∀ u : SaleView,
        u.acct.lastPurchaseEpoch = (epochIndex saleStartTime now2 : Int) →
        (saleTick saleStartTime now2 u).acct = u.acct := by
      intro u hu
      simp only [saleTick]
      rw [if_pos h2, if_neg (not_not_intro hu.symm)]
    exact hsame _ (by rw [hlast h1, h3])
  · have hsale : saleTick saleStartTime now v =
        { saleStarted := true, currentEpoch := epochIndex saleStartTime now,
          acct := { v.acct with
            userPurchasedUSDInCurrentEpoch := 0,
            lastPurchaseEpoch := (epochIndex saleStartTime now : Int) } } := by
      simp only [saleTick]
      rw [if_pos h1, if_pos h2]
    have h1s : (saleTick saleStartTime now v).saleStarted = true := by
      rw [hsale]
    have h2s : (saleTick saleStartTime now v).currentEpoch =
        epochIndex saleStartTime now := by
      rw [hsale]
    have h3s : (saleTick saleStartTime now
        v).acct.userPurchasedUSDInCurrentEpoch = 0 := by
      rw [hsale]
    have h4s : (saleTick saleStartTime now v).acct.totalPurchasedUSD =
        v.acct.totalPurchasedUSD := by
      rw [hsale]
    refine ⟨{ totalPurchasedUSD := v.acct.totalPurchasedUSD
                + amountToBuy * priceAtEpoch (epochIndex saleStartTime now),
              userPurchasedUSDInCurrentEpoch :=
                0 + amountToBuy * priceAtEpoch (epochIndex saleStartTime now),
              lastPurchaseEpoch :=
                (epochIndex saleStartTime now : Int) }, ?_⟩
    rw [h1s, h2s]
    simp only [handleBuy]
    rw [if_neg (by simp), if_neg (not_le.mpr hpos), h3s, h4s,
      if_neg (not_lt.mpr hlife),
      if_neg (not_lt.mpr (show (0 : ℚ) + _ ≤ MAX_EPOCH_PURCHASE_USD from
        by simpa [MAX_EPOCH_PURCHASE_USD] using hepoch))]

/-- Witness for C7: sale started at time 0 observed at 1 ms, a stale account
(lastPurchaseEpoch −1, $100 spent this epoch) is reset once; a second firing
at 2 ms in the same epoch changes nothing; afterwards a $50 purchase
succeeds. -/
theorem saleTick_epochReset_spec_witness :
    (saleTick 0 1 ⟨false, 0, ⟨0, 100, -1⟩⟩).acct.userPurchasedUSDInCurrentEpoch
        = 0 ∧
    (saleTick 0 2 (saleTick 0 1 ⟨false, 0, ⟨0, 100, -1⟩⟩)).acct =
      (saleTick 0 1 ⟨false, 0, ⟨0, 100, -1⟩⟩).acct ∧
    ∃ acctAfter,
      handleBuy (saleTick 0 1 ⟨false, 0, ⟨0, 100, -1⟩⟩).saleStarted
        (saleTick 0 1 ⟨false, 0, ⟨0, 100, -1⟩⟩).currentEpoch
        (saleTick 0 1 ⟨false, 0, ⟨0, 100, -1⟩⟩).acct 1000000 =
      Except.ok acctAfter := by
  have h := saleTick_epochReset_spec 0 1 2 ⟨false, 0, ⟨0, 100, -1⟩⟩
  have he1 : epochIndex 0 1 = 0 := by decide
  have he2 : epochIndex 0 2 = 0 := by decide
  refine ⟨(h.1 (by norm_num) (by rw [he1]; decide)).1, ?_, ?_⟩
  · exact h.2.2.1 (by norm_num) (by norm_num) (by rw [he1, he2])
  · exact h.2.2.2 1000000 (by norm_num) (by rw [he1]; decide) (by norm_num)
      (by rw [he1]; norm_num [priceAtEpoch, initialPrice,
        priceIncreaseFactor])
      (by rw [he1]; norm_num [priceAtEpoch, initialPrice,
        priceIncreaseFactor])

/-- C9: a spin while one is in flight is rejected (not queued); with no spin
in flight and zero tickets it fails with NoTicketsAvailable; otherwise it
consumes exactly one ticket and classifies three reel symbols drawn from the
fixed alphabet by the independent uniform index oracle, in priority order:
all three equal is a jackpot, exactly two of three equal in any positions is
a two-symbol match (PartialMatch), anything else no win. -/
theorem handleSpin_spec (ticketCount : Nat) (isSpinning : Bool)
    (i1 i2 i3 : Fin symbols.length) (s1 s2 s3 : String) :
    (isSpinning = true → handleSpin ticketCount isSpinning i1 i2 i3 =
      Except.error EconError.alreadySpinning) ∧
    (isSpinning = false → ticketCount = 0 →
      handleSpin ticketCount isSpinning i1 i2 i3 =
        Except.error EconError.noTicketsAvailable) ∧
    (isSpinning = false → 0 < ticketCount →
      handleSpin ticketCount isSpinning i1 i2 i3 = Except.ok (ticketCount - 1,
        classifySpin (symbols.get i1) (symbols.get i2) (symbols.get i3)) ∧
      symbols.get i1 ∈ symbols ∧ symbols.get i2 ∈ symbols ∧
      symbols.get i3 ∈ symbols) ∧
    (s1 = s2 → s2 = s3 → classifySpin s1 s2 s3 = SpinOutcome.jackpot) ∧
    (¬(s1 = s2 ∧ s2 = s3) → s1 = s2 ∨ s2 = s3 ∨ s1 = s3 →
      classifySpin s1 s2 s3 = SpinOutcome.pairMatch) ∧
    (s1 ≠ s2 → s2 ≠ s3 → s1 ≠ s3 →
      classifySpin s1 s2 s3 = SpinOutcome.noWin) := by
  refine ⟨fun h => ?_, fun h h0 => ?_, fun h h0 => ?_, fun ha hb => ?_,
    fun ha hb => ?_, fun ha hb hc => ?_⟩
  · simp [handleSpin, h]
  · simp [handleSpin, h, h0]
  · subst h
    refine ⟨?_, ?_, ?_, ?_⟩
    · simp only [handleSpin]
      rw [if_neg (by simp), if_pos h0]
    · exact List.get_mem symbols i1.1 i1.2
    · exact List.get_mem symbols i2.1 i2.2
    · exact List.get_mem symbols i3.1 i3.2
  · simp [classifySpin, ha, hb]
  · simp only [classifySpin]
    rw [if_neg (by tauto), if_pos hb]
  · simp [classifySpin, ha, hb, hc]

/-- Witness for C9: a two-ticket idle account spins to one ticket; the
classifier is exercised at a jackpot, a two-symbol match, and a no-win
triple; busy and empty accounts are rejected. -/
theorem handleSpin_spec_witness :
    handleSpin 2 false ⟨0, by decide⟩ ⟨1, by decide⟩ ⟨2, by decide⟩ =
      Except.ok (1, SpinOutcome.jackpot) ∧
    classifySpin "a" "a" "b" = SpinOutcome.pairMatch ∧
    classifySpin "a" "b" "c" = SpinOutcome.noWin ∧
    handleSpin 2 true ⟨0, by decide⟩ ⟨0, by decide⟩ ⟨0, by decide⟩ =
      Except.error EconError.alreadySpinning ∧
    handleSpin 0 false ⟨0, by decide⟩ ⟨0, by decide⟩ ⟨0, by decide⟩ =
      Except.error EconError.noTicketsAvailable := by
  refine ⟨?_, ?_, ?_, ?_, ?_⟩
  · have h := (handleSpin_spec 2 false ⟨0, by decide⟩ ⟨1, by decide⟩
      ⟨2, by decide⟩ "a" "a" "b").2.2.1 rfl (by norm_num)
    rw [h.1]
    rfl
  · exact (handleSpin_spec 2 false ⟨0, by decide⟩ ⟨1, by decide⟩
      ⟨2, by decide⟩ "a" "a" "b").2.2.2.2.1 (by decide) (by decide)
  · exact (handleSpin_spec 2 false ⟨0, by decide⟩ ⟨1, by decide⟩
      ⟨2, by decide⟩ "a" "b" "c").2.2.2.2.2 (by decide) (by decide)
      (by decide)
  · exact (handleSpin_spec 2 true ⟨0, by decide⟩ ⟨0, by decide⟩
      ⟨0, by decide⟩ "a" "a" "b").1 rfl
  · exact (handleSpin_spec 0 false ⟨0, by decide⟩ ⟨0, by decide⟩
      ⟨0, by decide⟩ "a" "a" "b").2.1 rfl rfl

/-- C10: the reel symbol alphabet consists of six identical entries (all the
empty string), so every completed spin draws three equal symbols and is
classified as a jackpot; the two-symbol-match and no-win branches are
unreachable. -/
theorem handleSpin_degenerate_spec (ticketCount : Nat)
    (i1 i2 i3 : Fin symbols.length) :
    (∀ j : Fin symbols.length, symbols.get j = "") ∧
    classifySpin (symbols.get i1) (symbols.get i2) (symbols.get i3) =
      SpinOutcome.jackpot ∧
    (0 < ticketCount → handleSpin ticketCount false i1 i2 i3 =
      Except.ok (ticketCount - 1, SpinOutcome.jackpot)) ∧
    classifySpin (symbols.get i1) (symbols.get i2) (symbols.get i3) ≠
      SpinOutcome.pairMatch ∧
    classifySpin (symbols.get i1) (symbols.get i2) (symbols.get i3) ≠
      SpinOutcome.noWin := by
  have hsym : ∀ j : Fin symbols.length, symbols.get j = "" := by decide
  have hcls : classifySpin (symbols.get i1) (symbols.get i2)
      (symbols.get i3) = SpinOutcome.jackpot := by
    rw [hsym i1, hsym i2, hsym i3]
    rfl
  refine ⟨hsym, hcls, fun h0 => ?_, ?_, ?_⟩
  · simp only [handleSpin]
    rw [if_neg (by simp), if_pos h0, hcls]
  · rw [hcls]
    decide
  · rw [hcls]
    decide

/-- Witness for C10: three tickets, arbitrary distinct reel indices, outcome
jackpot. -/
theorem handleSpin_degenerate_spec_witness :
    handleSpin 3 false ⟨0, by decide⟩ ⟨2, by decide⟩ ⟨5, by decide⟩ =
      Except.ok (2, SpinOutcome.jackpot) :=
  (handleSpin_degenerate_spec 3 ⟨0, by decide⟩ ⟨2, by decide⟩
    ⟨5, by decide⟩).2.2.1 (by norm_num)

end DinoFighter
